import Mathlib

/-!
Verification development for the djblets extension-hook registry and
web-API authentication core.

The definitions below are a shallow embedding of the two source modules:

* `djblets/webapi/auth.py` — the web-API authentication backend chain
  (`WebAPIAuthBackend.login_with_credentials`, `WebAPIAuthBackend.authenticate`,
  `check_login`, `get_auth_backends`, `reset_auth_backends`);
* `djblets/extensions/hooks.py` — the extension hook kinds
  (`ExtensionHook`, `URLHook`, `SignalHook`, `DataGridColumnsHook`,
  `TemplateHook`).

External collaborators (the Django identity provider, the routing table,
the signal bus, the datagrid column set and the template render context)
are modelled from the spec's boundary interfaces, each marked
`Modelled from the spec:` in its doc comment.  Stateful Python code is
embedded as explicit state passing; raising an assertion or exception is
embedded as `Option`/`Except` failure.
-/

set_option maxHeartbeats 1000000

namespace Djblets

/-- The `(is_successful, error_message, headers)` tuple that
`WebAPIAuthBackend.authenticate` and `login_with_credentials` return to
describe a decisive authentication outcome. -/
structure AuthResult where
  isSuccessful : Bool
  errorMessage : Option String
  headers : Option (List (String × String))
deriving DecidableEq, Repr

/-- A user record as returned by the external identity provider
(Django's `auth.authenticate`): a username and the `is_active` flag. -/
structure User where
  username : String
  isActive : Bool
deriving DecidableEq, Repr

/-- The authenticated session attached to a request: `some u` when user
`u` is logged in (`request.user.is_authenticated()` true and
`request.user.username = u`), `none` when anonymous. -/
abbrev Session := Option String

/-- The part of the Django request consumed by this core: the
`HTTP_AUTHORIZATION` entry of `request.META`, when present. -/
structure Request where
  httpAuthorization : Option String
deriving DecidableEq, Repr

/-- `WebAPIAuthBackend.login_with_credentials` from
`djblets/webapi/auth.py`.  `validate` models the external identity
provider `auth.authenticate`; the session state is threaded explicitly
(`auth.login` sets it, `auth.logout` clears it).  Mirrors the source:
skip validation when the session user already matches `username`;
otherwise validate, log in the resolved active user, or log out and
return a failure tuple. -/
def login_with_credentials (validate : String → String → Option User)
    (session : Session) (username password : String) : AuthResult × Session :=
  if session = some username then
    (⟨true, none, none⟩, session)
  else
    match validate username password with
    | some user =>
        if user.isActive then
          (⟨true, none, none⟩, some user.username)
        else
          (⟨false, none, none⟩, none)
    | none => (⟨false, none, none⟩, none)

/-- The two shapes `get_credentials` may produce in the source: a dict of
username/password (leading to `login_with_credentials`), or a tuple that
`authenticate` returns as-is. -/
inductive Credentials where
  | creds (username password : String)
  | direct (result : AuthResult)

/-- A web-API auth backend, reduced to the one method the chain
consumes: `get_credentials`, returning `none` when the request carries
no credentials for this backend's scheme. -/
structure WebAPIAuthBackend where
  get_credentials : Request → Option Credentials

/-- `WebAPIAuthBackend.authenticate`: fetch credentials; `none` means
decline (skip to the next backend) and touches no state; a dict leads to
`login_with_credentials`; a tuple is returned directly. -/
def authenticate (validate : String → String → Option User)
    (backend : WebAPIAuthBackend) (request : Request) (session : Session) :
    Option AuthResult × Session :=
  match backend.get_credentials request with
  | none => (none, session)
  | some (Credentials.creds u p) =>
      let r := login_with_credentials validate session u p
      (some r.1, r.2)
  | some (Credentials.direct r) => (some r, session)

/-- The loop body of `check_login`: try each backend in order, returning
the first non-`none` result of `authenticate`. -/
def tryBackends (validate : String → String → Option User)
    (backends : List WebAPIAuthBackend) (request : Request) (session : Session) :
    Option AuthResult × Session :=
  match backends with
  | [] => (none, session)
  | b :: rest =>
      match authenticate validate b request session with
      | (some r, s) => (some r, s)
      | (none, s) => tryBackends validate rest request s

/-- `check_login` from `djblets/webapi/auth.py`: only when the request
carries an `HTTP_AUTHORIZATION` header are the configured backends tried
in order. -/
def check_login (validate : String → String → Option User)
    (backends : List WebAPIAuthBackend) (request : Request) (session : Session) :
    Option AuthResult × Session :=
  if request.httpAuthorization.isSome then
    tryBackends validate backends request session
  else
    (none, session)

/-- The single built-in default backend class path used by
`get_auth_backends` when the setting is absent. -/
def defaultBackendPath : String := "djblets.webapi.auth.WebAPIBasicAuthBackend"

/-- The Django settings surface consumed by `get_auth_backends`:
`WEB_API_AUTH_BACKENDS`, `none` when the setting is absent (so that
`getattr`'s default applies). -/
structure Settings where
  webApiAuthBackends : Option (List String)
deriving DecidableEq, Repr

/-- The module-global state of `djblets/webapi/auth.py`: the cached
`_auth_backends` list, plus a rebuild counter instrumenting how many
times the build pass of `get_auth_backends` has run (the spec's
"rebuild counter" observable). -/
structure AuthBackendsState (β : Type) where
  authBackends : List β
  rebuilds : Nat
deriving DecidableEq, Repr

/-- The resolution loop of `get_auth_backends`: resolve each class path
in order, stopping at the first failure (`ImproperlyConfigured`). -/
def resolveBackends {β : Type} (resolve : String → Except String β) :
    List String → Except String (List β)
  | [] => Except.ok []
  | p :: rest =>
      match resolve p with
      | Except.error e => Except.error e
      | Except.ok b =>
          match resolveBackends resolve rest with
          | Except.error e => Except.error e
          | Except.ok bs => Except.ok (b :: bs)

/-- `get_auth_backends`: when the cached list is empty it is rebuilt
from configuration (`settings.WEB_API_AUTH_BACKENDS`, defaulting to the
single built-in backend path when absent), resolving each class path via
`resolve` (modelling `__import__`/`getattr`; `Except.error` models a
raised `ImproperlyConfigured`; the partially built list the Python loop
leaves behind on a raise is not observed by any caller that matters and
is discarded here).  Otherwise the cache is returned unchanged. -/
def get_auth_backends {β : Type} (resolve : String → Except String β)
    (settings : Settings) (st : AuthBackendsState β) :
    Except String (List β × AuthBackendsState β) :=
  if st.authBackends.isEmpty then
    match resolveBackends resolve
        (settings.webApiAuthBackends.getD [defaultBackendPath]) with
    | Except.error e => Except.error e
    | Except.ok bs => Except.ok (bs, ⟨bs, st.rebuilds + 1⟩)
  else
    Except.ok (st.authBackends, st)

/-- `reset_auth_backends`: clears the cached list so the next
`get_auth_backends` call rebuilds it. -/
def reset_auth_backends {β : Type} (st : AuthBackendsState β) :
    AuthBackendsState β :=
  ⟨[], st.rebuilds⟩

/-!
Shallow embedding of `djblets/extensions/hooks.py`.  Hook instances are
identified by a `Nat` id standing for Python object identity;
collaborator resources (route patterns, signal callbacks, datagrid
columns) likewise.  Each hook kind's per-class registry
(`ExtensionHookPoint.hooks`) is an ordered list of instance ids.
-/

/-- `ExtensionHookPoint.add_hook`: appends the instance to the kind's
active-hook list. -/
def add_hook (hooks : List Nat) (h : Nat) : List Nat := hooks ++ [h]

/-- `ExtensionHookPoint.remove_hook`: the registry state after a
successful `cls.hooks.remove(hook)` (Python `list.remove`, first
occurrence).  `list.remove` raises `ValueError` when the element is
absent; that error path is modelled by the explicit `∈` guard in each
shutdown operation below — the only places removal is invoked — which
yields `none` instead of this successful-removal result. -/
def remove_hook (hooks : List Nat) (h : Nat) : List Nat := hooks.erase h

/-- The base `ExtensionHook` instance state: its identity and the
`initialized` flag. -/
structure ExtensionHook where
  id : Nat
  initialized : Bool
deriving DecidableEq, Repr

/-- `ExtensionHook.__init__`: registers the fresh instance in the
kind's registry and sets `initialized`. -/
def extensionHook_init (hooks : List Nat) (id : Nat) :
    ExtensionHook × List Nat :=
  (⟨id, true⟩, add_hook hooks id)

/-- `ExtensionHook.shutdown`: `assert self.initialized` (a failing
assertion — calling shutdown on an uninitialized or already-shut-down
instance — is embedded as `none`), then removes the instance from the
kind's registry via `cls.hooks.remove` (raising `ValueError`, embedded
as `none`, when the instance is not registered) and clears the flag. -/
def extensionHook_shutdown (h : ExtensionHook) (hooks : List Nat) :
    Option (ExtensionHook × List Nat) :=
  if h.initialized then
    if h.id ∈ hooks then
      some (⟨h.id, false⟩, remove_hook hooks h.id)
    else
      none
  else
    none

/-- A `URLHook` instance: base hook state plus the route patterns it
added. -/
structure URLHook where
  id : Nat
  initialized : Bool
  patterns : List Nat
deriving DecidableEq, Repr

/-- Modelled from the spec: the routing-table collaborator's
`addPatterns` (`dynamic_urls.add_patterns`) appends the given ordered
patterns to the dynamic route collection. -/
def add_patterns (dynamicUrls ps : List Nat) : List Nat := dynamicUrls ++ ps

/-- Modelled from the spec: the routing-table collaborator's
`removePatterns` (`dynamic_urls.remove_patterns`) removes exactly the
given patterns, by identity, tolerating absence. -/
def remove_patterns (dynamicUrls ps : List Nat) : List Nat :=
  ps.foldl List.erase dynamicUrls

/-- `URLHook.__init__`: base registration, then adds the patterns to
the shared dynamic-URL collection. -/
def urlHook_init (hooks dynamicUrls : List Nat) (id : Nat) (ps : List Nat) :
    URLHook × List Nat × List Nat :=
  (⟨id, true, ps⟩, add_hook hooks id, add_patterns dynamicUrls ps)

/-- `URLHook.shutdown`: base shutdown (assertion, registry removal
with its `ValueError` on an unregistered instance, flag cleared), then
removes this instance's patterns from the dynamic-URL collection. -/
def urlHook_shutdown (h : URLHook) (hooks dynamicUrls : List Nat) :
    Option (URLHook × List Nat × List Nat) :=
  if h.initialized then
    if h.id ∈ hooks then
      some (⟨h.id, false, h.patterns⟩, remove_hook hooks h.id,
            remove_patterns dynamicUrls h.patterns)
    else
      none
  else
    none

/-- A `SignalHook` instance: base hook state plus the generated unique
`dispatch_uid` correlation token. -/
structure SignalHook where
  id : Nat
  initialized : Bool
  dispatchUid : Nat
deriving DecidableEq, Repr

/-- Modelled from the spec: the signal bus's `subscribe`
(`signal.connect` with `dispatch_uid`) records a `(token, callback)`
connection. -/
def signal_connect (conns : List (Nat × Nat)) (callback token : Nat) :
    List (Nat × Nat) :=
  conns ++ [(token, callback)]

/-- Modelled from the spec: the signal bus's `unsubscribe`
(`signal.disconnect` by `dispatch_uid`) removes the connections bearing
exactly that token. -/
def signal_disconnect (conns : List (Nat × Nat)) (token : Nat) :
    List (Nat × Nat) :=
  conns.filter (fun c => c.1 != token)

/-- `SignalHook.__init__`: base registration, then connects the
callback under a freshly generated `dispatch_uid` token. -/
def signalHook_init (hooks : List Nat) (conns : List (Nat × Nat))
    (id callback token : Nat) :
    SignalHook × List Nat × List (Nat × Nat) :=
  (⟨id, true, token⟩, add_hook hooks id, signal_connect conns callback token)

/-- `SignalHook.shutdown`: base shutdown (including the registry
removal's `ValueError` on an unregistered instance), then disconnects
by this instance's `dispatch_uid` token only. -/
def signalHook_shutdown (h : SignalHook) (hooks : List Nat)
    (conns : List (Nat × Nat)) :
    Option (SignalHook × List Nat × List (Nat × Nat)) :=
  if h.initialized then
    if h.id ∈ hooks then
      some (⟨h.id, false, h.dispatchUid⟩, remove_hook hooks h.id,
            signal_disconnect conns h.dispatchUid)
    else
      none
  else
    none

/-- A `DataGridColumnsHook` instance: base hook state plus the ordered
column definitions it contributed. -/
structure DataGridColumnsHook where
  id : Nat
  initialized : Bool
  columns : List Nat
deriving DecidableEq, Repr

/-- Modelled from the spec: the tabular-view collaborator's `addColumn`
(`datagrid_cls.add_column`) adds one column definition. -/
def add_column (cols : List Nat) (c : Nat) : List Nat := cols ++ [c]

/-- Modelled from the spec: the tabular-view collaborator's
`removeColumn` (`datagrid_cls.remove_column`) removes one column
definition, tolerating absence. -/
def remove_column (cols : List Nat) (c : Nat) : List Nat := cols.erase c

/-- `DataGridColumnsHook.__init__`: base registration, then adds each
column definition, in order, to the target datagrid type. -/
def dataGridColumnsHook_init (hooks cols : List Nat) (id : Nat)
    (cs : List Nat) : DataGridColumnsHook × List Nat × List Nat :=
  (⟨id, true, cs⟩, add_hook hooks id, cs.foldl add_column cols)

/-- `DataGridColumnsHook.shutdown`: base shutdown (including the
registry removal's `ValueError` on an unregistered instance), then
removes each column definition this instance added. -/
def dataGridColumnsHook_shutdown (h : DataGridColumnsHook)
    (hooks cols : List Nat) :
    Option (DataGridColumnsHook × List Nat × List Nat) :=
  if h.initialized then
    if h.id ∈ hooks then
      some (⟨h.id, false, h.columns⟩, remove_hook hooks h.id,
            h.columns.foldl remove_column cols)
    else
      none
  else
    none

/-- The process-wide `TemplateHook._by_name` mapping from insertion
point name to the ordered list of attached instance ids. -/
abbrev ByName := List (String × List Nat)

/-- Lookup of a name in the `_by_name` mapping (`name in _by_name` /
`_by_name[name]`). -/
def byNameLookup : ByName → String → Option (List Nat)
  | [], _ => none
  | (k, v) :: rest, name =>
      if k = name then some v else byNameLookup rest name

/-- Update of a name's entry in the `_by_name` mapping
(`_by_name[name] = v`), inserting the key when absent. -/
def byNameSet : ByName → String → List Nat → ByName
  | [], name, v => [(name, v)]
  | (k, w) :: rest, name, v =>
      if k = name then (k, v) :: rest else (k, w) :: byNameSet rest name v

/-- A `TemplateHook` instance: base hook state plus the insertion point
name it is attached under. -/
structure TemplateHook where
  id : Nat
  initialized : Bool
  name : String
deriving DecidableEq, Repr

/-- `TemplateHook.__init__`: base registration, then appends itself to
`_by_name[name]`, creating the one-element list on first use of the
name. -/
def templateHook_init (hooks : List Nat) (byName : ByName) (id : Nat)
    (name : String) : TemplateHook × List Nat × ByName :=
  (⟨id, true, name⟩, add_hook hooks id,
    match byNameLookup byName name with
    | none => byNameSet byName name [id]
    | some l => byNameSet byName name (l ++ [id]))

/-- `TemplateHook.shutdown`: base shutdown (assertion, then the
registry removal with its `ValueError` on an unregistered instance),
then `_by_name[self.name].remove(self)`.  A missing key (`KeyError`) or
a missing instance (`ValueError`) in the by-name mapping is likewise
embedded as `none`. -/
def templateHook_shutdown (h : TemplateHook) (hooks : List Nat)
    (byName : ByName) : Option (TemplateHook × List Nat × ByName) :=
  if h.initialized then
    if h.id ∈ hooks then
      match byNameLookup byName h.name with
      | none => none
      | some l =>
          if h.id ∈ l then
            some (⟨h.id, false, h.name⟩, remove_hook hooks h.id,
                  byNameSet byName h.name (l.erase h.id))
          else
            none
    else
      none
  else
    none

/-- `TemplateHook.by_name`: the ordered list of instances attached
under `name`, empty when none are. -/
def templateHook_by_name (byName : ByName) (name : String) : List Nat :=
  (byNameLookup byName name).getD []

/-- Attaching a sequence of `TemplateHook` instances under one name, in
order, threading the registry and the `_by_name` mapping. -/
def templateHookAttachAll (st : List Nat × ByName) (name : String)
    (ids : List Nat) : List Nat × ByName :=
  ids.foldl
    (fun st i =>
      ((templateHook_init st.1 st.2 i name).2.1,
       (templateHook_init st.1 st.2 i name).2.2))
    st

/-- A template render context: a stack of key-value scopes, innermost
scope first. -/
abbrev RenderContext := List (List (String × Nat))

/-- Modelled from the spec: `context.push()` opens a fresh innermost
scope. -/
def context_push (c : RenderContext) : RenderContext := [] :: c

/-- Modelled from the spec: `context[key] = v` binds `key` in the
innermost scope. -/
def context_set (c : RenderContext) (key : String) (v : Nat) :
    RenderContext :=
  match c with
  | [] => [[(key, v)]]
  | top :: rest => ((key, v) :: top) :: rest

/-- Modelled from the spec: `context.pop()` discards the innermost
scope. -/
def context_pop (c : RenderContext) : RenderContext := c.tail

/-- Lookup of a key inside one scope. -/
def scope_get : List (String × Nat) → String → Option Nat
  | [], _ => none
  | (k, v) :: rest, key => if k = key then some v else scope_get rest key

/-- Lookup of a key in the context, innermost scope first. -/
def context_get : RenderContext → String → Option Nat
  | [], _ => none
  | top :: rest, key =>
      match scope_get top key with
      | some v => some v
      | none => context_get rest key

/-- The well-known context key under which the owning extension is
injected. -/
def extensionKey : String := "extension"

/-- `TemplateHook.render_to_string`: push a scope, inject the owning
extension under the `extension` key, render, and pop in a `finally`
block.  `render` models the external template renderer and may fail
(`Except.error` embeds a raised rendering exception); the popped
context is returned on both the success and the failure path, exactly
as `try`/`finally` guarantees in the source. -/
def templateHook_render_to_string
    (render : RenderContext → Except String String) (extension : Nat)
    (context : RenderContext) : Except String String × RenderContext :=
  let pushed := context_set (context_push context) extensionKey extension
  (render pushed, context_pop pushed)

/-! Concrete instances used by the witnesses below. -/

/-- A backend that always declines: `get_credentials` finds nothing. -/
def declineBackend : WebAPIAuthBackend := ⟨fun _ => none⟩

/-- A backend that always returns a decisive success tuple directly. -/
def alwaysSucceedBackend : WebAPIAuthBackend :=
  ⟨fun _ => some (Credentials.direct ⟨true, none, none⟩)⟩

/-- A concrete authorization header value. -/
def basicHeader : String := "Basic abc"

/-- A request carrying an `HTTP_AUTHORIZATION` header. -/
def headerRequest : Request := ⟨some basicHeader⟩

/-- A concrete username. -/
def aliceUser : String := "alice"

/-- A concrete (stale) password. -/
def stalePassword : String := "stale"

/-! Shared helper lemmas. -/

/-- Erasing a freshly appended element restores the original list. -/
theorem erase_append_singleton (l : List Nat) (a : Nat) (h : a ∉ l) :
    (l ++ [a]).erase a = l := by
  rw [List.erase_append_right _ h]
  simp

/-- Erasing, in order, each element of a freshly appended block
restores the original list. -/
theorem foldl_erase_append (ps dyn : List Nat)
    (hfresh : ∀ p ∈ ps, p ∉ dyn) :
    ps.foldl List.erase (dyn ++ ps) = dyn := by
  induction ps generalizing dyn with
  | nil => simp
  | cons p rest ih =>
      have hp : p ∉ dyn := hfresh p (by simp)
      have h1 : (dyn ++ p :: rest).erase p = dyn ++ rest := by
        rw [List.erase_append_right _ hp, List.erase_cons_head]
      simp only [List.foldl_cons, h1]
      exact ih dyn (fun q hq => hfresh q (by simp [hq]))

/-- `authenticate` returns `none` only from the no-credentials branch,
which leaves the session untouched. -/
theorem authenticate_fst_none (validate : String → String → Option User)
    (backend : WebAPIAuthBackend) (request : Request) (session : Session)
    (h : (authenticate validate backend request session).1 = none) :
    authenticate validate backend request session = (none, session) := by
  unfold authenticate at h ⊢
  cases hc : backend.get_credentials request with
  | none => rfl
  | some c =>
      cases c with
      | creds u p => rw [hc] at h; simp at h
      | direct r => rw [hc] at h; simp at h

/-! Claim theorems. -/

/-- Claim C10: a request whose metadata carries no `HTTP_AUTHORIZATION`
header makes `check_login` return `none` with the session untouched,
whatever the configured backend chain is — the conclusion does not
depend on `backends` or `validate`, so no backend is consulted. -/
theorem c10_no_header_no_backend (validate : String → String → Option User)
    (backends : List WebAPIAuthBackend) (request : Request)
    (session : Session) (h : request.httpAuthorization = none) :
    check_login validate backends request session = (none, session) := by
  unfold check_login
  rw [h]
  rfl

/-- Witness for C10 at a concrete input: even with a backend that would
decisively succeed, a header-less request yields `none`. -/
theorem c10_witness :
    check_login (fun _ _ => none) [alwaysSucceedBackend] ⟨none⟩ none =
      (none, none) :=
  c10_no_header_no_backend (fun _ _ => none) [alwaysSucceedBackend] ⟨none⟩
    none rfl

/-- Claim C4: when the session is already authenticated as the supplied
username, `login_with_credentials` short-circuits to the success tuple
without touching the session; the right-hand side mentions neither
`validate` nor `password`, so the identity provider is not consulted
and a stale password still succeeds. -/
theorem c4_short_circuit (validate : String → String → Option User)
    (session : Session) (username password : String)
    (h : session = some username) :
    login_with_credentials validate session username password =
      (⟨true, none, none⟩, session) := by
  unfold login_with_credentials
  rw [if_pos h]

/-- Witness for C4 at a concrete input: the identity provider rejects
everything, the password is stale, yet the matching session wins. -/
theorem c4_witness :
    login_with_credentials (fun _ _ => none) (some aliceUser) aliceUser
      stalePassword = (⟨true, none, none⟩, some aliceUser) :=
  c4_short_circuit (fun _ _ => none) (some aliceUser) aliceUser
    stalePassword rfl

/-- Claim C8: when the session does not already match and the identity
provider rejects the credentials (or resolves an inactive user),
`login_with_credentials` returns the decisive failure tuple
`(false, none, none)` as an ordinary value — the embedding is a total
function, no exception path exists — and clears the session. -/
theorem c8_failure_clears_session (validate : String → String → Option User)
    (session : Session) (username password : String)
    (hnm : session ≠ some username)
    (hrej : ∀ u, validate username password = some u → u.isActive = false) :
    login_with_credentials validate session username password =
      (⟨false, none, none⟩, none) := by
  unfold login_with_credentials
  rw [if_neg hnm]
  cases hv : validate username password with
  | none => rfl
  | some u => simp [hrej u hv]

/-- Witness for C8 at a concrete input: an anonymous session and a
rejecting identity provider produce the failure tuple and a cleared
session. -/
theorem c8_witness :
    login_with_credentials (fun _ _ => none) none aliceUser stalePassword =
      (⟨false, none, none⟩, none) :=
  c8_failure_clears_session (fun _ _ => none) none aliceUser stalePassword
    (by simp) (fun u hu => Option.noConfusion hu)

/-- Claim C3: with an `HTTP_AUTHORIZATION` header present,
`check_login` tries the configured backends in order; every earlier
backend that declines (its `authenticate` returns `none`) leaves the
session untouched, and the first decisive backend's result and session
effect are returned — the backends after it are never reached. -/
theorem c3_first_decisive (validate : String → String → Option User)
    (pre : List WebAPIAuthBackend) (b : WebAPIAuthBackend)
    (rest : List WebAPIAuthBackend) (request : Request) (session : Session)
    (r : AuthResult) (s : Session)
    (hauth : request.httpAuthorization.isSome = true)
    (hdecline : ∀ x ∈ pre, (authenticate validate x request session).1 = none)
    (hdec : authenticate validate b request session = (some r, s)) :
    check_login validate (pre ++ b :: rest) request session = (some r, s) := by
  unfold check_login
  rw [if_pos hauth]
  induction pre with
  | nil =>
      simp only [List.nil_append]
      unfold tryBackends
      rw [hdec]
  | cons x xs ih =>
      have hx := authenticate_fst_none validate x request session
        (hdecline x (by simp))
      simp only [List.cons_append]
      unfold tryBackends
      rw [hx]
      exact ih (fun y hy => hdecline y (by simp [hy]))

/-- Witness for C3 at a concrete input: a declining backend followed by
a decisively succeeding one yields the second backend's result. -/
theorem c3_witness :
    check_login (fun _ _ => none)
      ([declineBackend] ++ alwaysSucceedBackend :: []) headerRequest none =
      (some ⟨true, none, none⟩, none) :=
  c3_first_decisive (fun _ _ => none) [declineBackend] alwaysSucceedBackend
    [] headerRequest none ⟨true, none, none⟩ none rfl
    (fun x hx => by
      rw [List.mem_singleton] at hx
      subst hx
      rfl)
    rfl

/-- Counterexample to claim C1 as stated: with the configuration
explicitly set to the empty list (and an empty cache),
`get_auth_backends` returns the empty list — not a one-element list
holding the built-in default backend.  `getattr`'s default only applies
when the setting is absent, not when it is present and empty. -/
theorem c1_counterexample :
    get_auth_backends (fun p => Except.ok p) ⟨some []⟩
        (⟨[], 0⟩ : AuthBackendsState String) =
      Except.ok ([], ⟨[], 1⟩) ∧
    ([] : List String).length ≠ 1 :=
  ⟨rfl, by decide⟩

/-- Claim C1 amended: explicitly configuring the backend identifier
list as the empty list makes `get_auth_backends` return the empty list;
the single built-in default backend is used only when the setting is
absent. -/
theorem c1_amended {β : Type} (resolve : String → Except String β)
    (n : Nat) (b : β) (hres : resolve defaultBackendPath = Except.ok b) :
    get_auth_backends resolve ⟨some []⟩ (⟨[], n⟩ : AuthBackendsState β) =
      Except.ok ([], ⟨[], n + 1⟩) ∧
    get_auth_backends resolve ⟨none⟩ (⟨[], n⟩ : AuthBackendsState β) =
      Except.ok ([b], ⟨[b], n + 1⟩) := by
  constructor
  · rfl
  · simp [get_auth_backends, resolveBackends, hres]

/-- Witness for the amended C1 at a concrete input. -/
theorem c1_amended_witness :
    get_auth_backends (fun p => Except.ok p) ⟨some []⟩
        (⟨[], 0⟩ : AuthBackendsState String) =
      Except.ok ([], ⟨[], 1⟩) ∧
    get_auth_backends (fun p => Except.ok p) ⟨none⟩
        (⟨[], 0⟩ : AuthBackendsState String) =
      Except.ok ([defaultBackendPath], ⟨[defaultBackendPath], 1⟩) :=
  c1_amended (fun p => Except.ok p) 0 defaultBackendPath rfl

/-- Counterexample to claim C2 as stated: with the configuration
explicitly set to the empty list, the first `get_auth_backends` call
builds the (empty) chain, yet the second call runs the build pass
again — the rebuild counter moves from 1 to 2 — because the code uses
emptiness of the cache as its "unbuilt" test. -/
theorem c2_counterexample :
    get_auth_backends (fun p => Except.ok p) ⟨some []⟩
        (⟨[], 0⟩ : AuthBackendsState String) = Except.ok ([], ⟨[], 1⟩) ∧
    get_auth_backends (fun p => Except.ok p) ⟨some []⟩
        (⟨[], 1⟩ : AuthBackendsState String) = Except.ok ([], ⟨[], 2⟩) ∧
    (2 : Nat) ≠ 1 :=
  ⟨rfl, rfl, by decide⟩

/-- Claim C2 amended: for every configuration whose resolved backend
chain is non-empty, once `get_auth_backends` has built the chain,
repeated calls return the same ordered list and the same state (no
further build pass); `reset_auth_backends` is idempotent, and after any
run of consecutive resets the next successful `get_auth_backends`
performs the build pass exactly once (the rebuild counter increments by
exactly one). -/
theorem c2_amended {β : Type} (resolve : String → Except String β)
    (settings : Settings) (st st2 s : AuthBackendsState β) (bs cs : List β)
    (hget : get_auth_backends resolve settings st = Except.ok (bs, st2))
    (hne : bs ≠ [])
    (hres : resolveBackends resolve
        (settings.webApiAuthBackends.getD [defaultBackendPath]) =
      Except.ok cs) :
    get_auth_backends resolve settings st2 = Except.ok (bs, st2) ∧
    reset_auth_backends (reset_auth_backends s) = reset_auth_backends s ∧
    get_auth_backends resolve settings (reset_auth_backends s) =
      Except.ok (cs, ⟨cs, s.rebuilds + 1⟩) := by
  refine ⟨?_, rfl, ?_⟩
  · unfold get_auth_backends at hget ⊢
    by_cases hE : st.authBackends.isEmpty
    · rw [if_pos hE, hres] at hget
      rw [Except.ok.injEq, Prod.mk.injEq] at hget
      obtain ⟨h1, h2⟩ := hget
      subst h1
      subst h2
      cases cs with
      | nil => exact absurd rfl hne
      | cons a l => rfl
    · rw [if_neg hE] at hget
      rw [Except.ok.injEq, Prod.mk.injEq] at hget
      obtain ⟨h1, h2⟩ := hget
      subst h2
      subst h1
      rw [if_neg hE]
  · simp [get_auth_backends, reset_auth_backends, hres]

/-- Witness for the amended C2 at a concrete input. -/
theorem c2_amended_witness :
    get_auth_backends (fun p => Except.ok p) ⟨none⟩
        (⟨[defaultBackendPath], 1⟩ : AuthBackendsState String) =
      Except.ok ([defaultBackendPath], ⟨[defaultBackendPath], 1⟩) ∧
    reset_auth_backends
        (reset_auth_backends
          (⟨[defaultBackendPath], 1⟩ : AuthBackendsState String)) =
      reset_auth_backends
        (⟨[defaultBackendPath], 1⟩ : AuthBackendsState String) ∧
    get_auth_backends (fun p => Except.ok p) ⟨none⟩
        (reset_auth_backends
          (⟨[defaultBackendPath], 1⟩ : AuthBackendsState String)) =
      Except.ok ([defaultBackendPath], ⟨[defaultBackendPath], 2⟩) :=
  c2_amended (fun p => Except.ok p) ⟨none⟩ ⟨[], 0⟩
    ⟨[defaultBackendPath], 1⟩ ⟨[defaultBackendPath], 1⟩
    [defaultBackendPath] [defaultBackendPath] rfl (by simp) rfl

/-! Helper lemmas for the hook kinds. -/

/-- Removing a freshly registered hook restores the registry. -/
theorem remove_add_hook (hooks : List Nat) (h : Nat) (hmem : h ∉ hooks) :
    remove_hook (add_hook hooks h) h = hooks := by
  unfold add_hook remove_hook
  exact erase_append_singleton hooks h hmem

/-- Removing freshly added patterns restores the dynamic-URL state. -/
theorem remove_add_patterns (dynamicUrls ps : List Nat)
    (hfresh : ∀ p ∈ ps, p ∉ dynamicUrls) :
    remove_patterns (add_patterns dynamicUrls ps) ps = dynamicUrls := by
  unfold add_patterns remove_patterns
  exact foldl_erase_append ps dynamicUrls hfresh

/-- Disconnecting a freshly generated token restores the signal bus. -/
theorem disconnect_connect (conns : List (Nat × Nat)) (callback token : Nat)
    (hfresh : ∀ c ∈ conns, c.1 ≠ token) :
    signal_disconnect (signal_connect conns callback token) token = conns := by
  unfold signal_connect signal_disconnect
  rw [List.filter_append]
  have h1 : conns.filter (fun c => c.1 != token) = conns := by
    rw [List.filter_eq_self]
    intro c hc
    simpa using hfresh c hc
  have h2 : ([((token, callback) : Nat × Nat)]).filter
      (fun c => c.1 != token) = [] := by
    simp
  rw [h1, h2, List.append_nil]

/-- Adding columns one by one appends them in order. -/
theorem foldl_add_column (cs cols : List Nat) :
    cs.foldl add_column cols = cols ++ cs := by
  induction cs generalizing cols with
  | nil => simp
  | cons a l ih =>
      simp only [List.foldl_cons]
      rw [ih]
      simp [add_column]

/-- Removing each freshly added column restores the datagrid state. -/
theorem remove_add_columns (cols cs : List Nat)
    (hfresh : ∀ c ∈ cs, c ∉ cols) :
    cs.foldl remove_column (cs.foldl add_column cols) = cols := by
  rw [foldl_add_column]
  show cs.foldl List.erase (cols ++ cs) = cols
  exact foldl_erase_append cs cols hfresh

/-- Claim C6: under the precondition that the instance is initialized —
which for a successfully created, not yet shut down instance entails
that it is registered in its kind's collection — `ExtensionHook.shutdown`
succeeds (neither the assertion nor the registry removal's `ValueError`
fires), removes the instance from the registry and clears the flag; on
an uninitialized (never created or already shut down) instance it
aborts loudly (`none`) instead of being silently ignored. -/
theorem c6_shutdown_contract (h h2 : ExtensionHook) (hooks : List Nat)
    (hin : h.initialized = true) (hmem : h.id ∈ hooks) (hnd : hooks.Nodup)
    (h2in : h2.initialized = false) :
    extensionHook_shutdown h hooks =
      some (⟨h.id, false⟩, remove_hook hooks h.id) ∧
    h.id ∉ remove_hook hooks h.id ∧
    extensionHook_shutdown h2 hooks = none := by
  refine ⟨?_, ?_, ?_⟩
  · unfold extensionHook_shutdown
    rw [if_pos hin, if_pos hmem]
  · intro hmem2
    simp only [remove_hook] at hmem2
    exact (List.Nodup.mem_erase_iff hnd).mp hmem2 |>.1 rfl
  · unfold extensionHook_shutdown
    rw [if_neg (by simp [h2in])]

/-- Witness for C6 at a concrete input. -/
theorem c6_witness :
    extensionHook_shutdown ⟨3, true⟩ [2, 3, 5] =
      some (⟨3, false⟩, remove_hook [2, 3, 5] 3) ∧
    3 ∉ remove_hook [2, 3, 5] 3 ∧
    extensionHook_shutdown ⟨7, false⟩ [2, 3, 5] = none :=
  c6_shutdown_contract ⟨3, true⟩ ⟨7, false⟩ [2, 3, 5] rfl (by decide)
    (by decide) rfl

/-- Claim C5: for each side-effecting hook kind (`URLHook`,
`SignalHook`, `DataGridColumnsHook`), an attach from any prior state —
whatever sequence of attaches and detaches produced it — followed by
that instance's shutdown removes the instance from the kind's registry
and exactly reverses the kind-specific side effect, restoring both the
registry and the collaborator state to their pre-attach values.  The
freshness hypotheses encode Python object identity: a newly created
instance, pattern object, `uuid1` token, or column object is not
already present. -/
theorem c5_attach_shutdown_roundtrip
    (hooksU dynamicUrls : List Nat) (idU : Nat) (ps : List Nat)
    (hU1 : idU ∉ hooksU) (hU2 : ∀ p ∈ ps, p ∉ dynamicUrls)
    (hooksS : List Nat) (conns : List (Nat × Nat)) (idS callback token : Nat)
    (hS1 : idS ∉ hooksS) (hS2 : ∀ c ∈ conns, c.1 ≠ token)
    (hooksD cols : List Nat) (idD : Nat) (cs : List Nat)
    (hD1 : idD ∉ hooksD) (hD2 : ∀ c ∈ cs, c ∉ cols) :
    urlHook_shutdown (urlHook_init hooksU dynamicUrls idU ps).1
        (urlHook_init hooksU dynamicUrls idU ps).2.1
        (urlHook_init hooksU dynamicUrls idU ps).2.2 =
      some (⟨idU, false, ps⟩, hooksU, dynamicUrls) ∧
    signalHook_shutdown (signalHook_init hooksS conns idS callback token).1
        (signalHook_init hooksS conns idS callback token).2.1
        (signalHook_init hooksS conns idS callback token).2.2 =
      some (⟨idS, false, token⟩, hooksS, conns) ∧
    dataGridColumnsHook_shutdown
        (dataGridColumnsHook_init hooksD cols idD cs).1
        (dataGridColumnsHook_init hooksD cols idD cs).2.1
        (dataGridColumnsHook_init hooksD cols idD cs).2.2 =
      some (⟨idD, false, cs⟩, hooksD, cols) := by
  refine ⟨?_, ?_, ?_⟩
  · show (if idU ∈ add_hook hooksU idU then
        some ((⟨idU, false, ps⟩ : URLHook),
          remove_hook (add_hook hooksU idU) idU,
          remove_patterns (add_patterns dynamicUrls ps) ps)
      else none) =
        some ((⟨idU, false, ps⟩ : URLHook), hooksU, dynamicUrls)
    rw [if_pos (by simp [add_hook] : idU ∈ add_hook hooksU idU),
        remove_add_hook hooksU idU hU1,
        remove_add_patterns dynamicUrls ps hU2]
  · show (if idS ∈ add_hook hooksS idS then
        some ((⟨idS, false, token⟩ : SignalHook),
          remove_hook (add_hook hooksS idS) idS,
          signal_disconnect (signal_connect conns callback token) token)
      else none) =
        some ((⟨idS, false, token⟩ : SignalHook), hooksS, conns)
    rw [if_pos (by simp [add_hook] : idS ∈ add_hook hooksS idS),
        remove_add_hook hooksS idS hS1,
        disconnect_connect conns callback token hS2]
  · show (if idD ∈ add_hook hooksD idD then
        some ((⟨idD, false, cs⟩ : DataGridColumnsHook),
          remove_hook (add_hook hooksD idD) idD,
          cs.foldl remove_column (cs.foldl add_column cols))
      else none) =
        some ((⟨idD, false, cs⟩ : DataGridColumnsHook), hooksD, cols)
    rw [if_pos (by simp [add_hook] : idD ∈ add_hook hooksD idD),
        remove_add_hook hooksD idD hD1, remove_add_columns cols cs hD2]

/-- Witness for C5 at concrete inputs. -/
theorem c5_witness :
    urlHook_shutdown (urlHook_init [] [] 1 [10, 11]).1
        (urlHook_init [] [] 1 [10, 11]).2.1
        (urlHook_init [] [] 1 [10, 11]).2.2 =
      some (⟨1, false, [10, 11]⟩, [], []) ∧
    signalHook_shutdown (signalHook_init [] [] 2 7 99).1
        (signalHook_init [] [] 2 7 99).2.1
        (signalHook_init [] [] 2 7 99).2.2 =
      some (⟨2, false, 99⟩, [], []) ∧
    dataGridColumnsHook_shutdown (dataGridColumnsHook_init [] [20] 3 [21, 22]).1
        (dataGridColumnsHook_init [] [20] 3 [21, 22]).2.1
        (dataGridColumnsHook_init [] [20] 3 [21, 22]).2.2 =
      some (⟨3, false, [21, 22]⟩, [], [20]) :=
  c5_attach_shutdown_roundtrip [] [] 1 [10, 11] (by decide) (by decide)
    [] [] 2 7 99 (by decide) (by decide)
    [] [20] 3 [21, 22] (by decide) (by decide)

/-! Helper lemmas for `TemplateHook`. -/

/-- A concrete insertion-point name. -/
def slotName : String := "navbar-slot"

/-- A concrete rendering failure message. -/
def failMessage : String := "template error"

/-- Looking a name up right after setting it yields the set value. -/
theorem byNameLookup_byNameSet (m : ByName) (name : String) (v : List Nat) :
    byNameLookup (byNameSet m name v) name = some v := by
  induction m with
  | nil => simp [byNameSet, byNameLookup]
  | cons kv rest ih =>
      obtain ⟨k, w⟩ := kv
      by_cases hk : k = name
      · simp [byNameSet, byNameLookup, hk]
      · simp [byNameSet, byNameLookup, hk, ih]

/-- One `TemplateHook` attach appends the instance to its name's
list. -/
theorem by_name_attach_step (hooks : List Nat) (byName : ByName)
    (i : Nat) (name : String) :
    templateHook_by_name (templateHook_init hooks byName i name).2.2 name =
      templateHook_by_name byName name ++ [i] := by
  unfold templateHook_init templateHook_by_name
  cases hl : byNameLookup byName name with
  | none => simp [hl, byNameLookup_byNameSet]
  | some l => simp [hl, byNameLookup_byNameSet]

/-- Attaching a sequence of instances registers each of them, in
order, in the kind's registry. -/
theorem attachAll_registry (hooks : List Nat) (byName : ByName)
    (name : String) (ids : List Nat) :
    (templateHookAttachAll (hooks, byName) name ids).1 = hooks ++ ids := by
  induction ids generalizing hooks byName with
  | nil => simp [templateHookAttachAll]
  | cons i l ih =>
      show (templateHookAttachAll
          ((templateHook_init hooks byName i name).2.1,
           (templateHook_init hooks byName i name).2.2) name l).1 = _
      rw [ih]
      simp [templateHook_init, add_hook]

/-- Attaching a sequence of instances under one name appends them in
attachment order. -/
theorem by_name_attachAll (hooks : List Nat) (byName : ByName)
    (name : String) (ids : List Nat) :
    templateHook_by_name (templateHookAttachAll (hooks, byName) name ids).2
        name =
      templateHook_by_name byName name ++ ids := by
  induction ids generalizing hooks byName with
  | nil => simp [templateHookAttachAll]
  | cons i l ih =>
      show templateHook_by_name
          (templateHookAttachAll
            ((templateHook_init hooks byName i name).2.1,
             (templateHook_init hooks byName i name).2.2) name l).2 name = _
      rw [ih, by_name_attach_step]
      simp

/-- Claim C7: attaching N `TemplateHook` instances under one name makes
`by_name` return exactly those N in attachment order (and a name with
no attachments yields the empty list); shutting one of them down
removes exactly that instance from the name's list (`List.erase`),
leaving the remaining N−1 in their original relative order. -/
theorem c7_by_name_order (hooks : List Nat) (byName : ByName)
    (name : String) (ids : List Nat) (x : Nat)
    (hstart : byNameLookup byName name = none) (hx : x ∈ ids) :
    templateHook_by_name byName name = [] ∧
    templateHook_by_name (templateHookAttachAll (hooks, byName) name ids).2
        name = ids ∧
    templateHook_shutdown ⟨x, true, name⟩
        (templateHookAttachAll (hooks, byName) name ids).1
        (templateHookAttachAll (hooks, byName) name ids).2 =
      some (⟨x, false, name⟩,
            remove_hook (templateHookAttachAll (hooks, byName) name ids).1 x,
            byNameSet (templateHookAttachAll (hooks, byName) name ids).2 name
              (ids.erase x)) ∧
    templateHook_by_name
        (byNameSet (templateHookAttachAll (hooks, byName) name ids).2 name
          (ids.erase x)) name = ids.erase x := by
  have hempty : templateHook_by_name byName name = [] := by
    unfold templateHook_by_name
    rw [hstart]
    rfl
  have hall : templateHook_by_name
      (templateHookAttachAll (hooks, byName) name ids).2 name = ids := by
    rw [by_name_attachAll, hempty]
    rfl
  have hlook : byNameLookup
      (templateHookAttachAll (hooks, byName) name ids).2 name = some ids := by
    cases hL : byNameLookup
        (templateHookAttachAll (hooks, byName) name ids).2 name with
    | none =>
        exfalso
        unfold templateHook_by_name at hall
        rw [hL] at hall
        simp at hall
        subst hall
        exact absurd hx (List.not_mem_nil x)
    | some l =>
        unfold templateHook_by_name at hall
        rw [hL] at hall
        simp at hall
        exact congrArg some hall
  have hreg : x ∈ (templateHookAttachAll (hooks, byName) name ids).1 := by
    rw [attachAll_registry]
    exact List.mem_append_right hooks hx
  refine ⟨hempty, hall, ?_, ?_⟩
  · simp [templateHook_shutdown, hlook, hx, hreg]
  · unfold templateHook_by_name
    rw [byNameLookup_byNameSet]
    rfl

/-- Witness for C7 at a concrete input: three instances attached under
one name, then the middle one shut down. -/
theorem c7_witness :
    templateHook_by_name [] slotName = [] ∧
    templateHook_by_name (templateHookAttachAll ([], []) slotName [4, 5, 6]).2
        slotName = [4, 5, 6] ∧
    templateHook_shutdown ⟨5, true, slotName⟩
        (templateHookAttachAll ([], []) slotName [4, 5, 6]).1
        (templateHookAttachAll ([], []) slotName [4, 5, 6]).2 =
      some (⟨5, false, slotName⟩,
            remove_hook (templateHookAttachAll ([], []) slotName [4, 5, 6]).1 5,
            byNameSet (templateHookAttachAll ([], []) slotName [4, 5, 6]).2
              slotName (([4, 5, 6] : List Nat).erase 5)) ∧
    templateHook_by_name
        (byNameSet (templateHookAttachAll ([], []) slotName [4, 5, 6]).2
          slotName (([4, 5, 6] : List Nat).erase 5)) slotName =
      ([4, 5, 6] : List Nat).erase 5 :=
  c7_by_name_order [] [] slotName [4, 5, 6] 5 rfl (by decide)

/-- Claim C9: `TemplateHook.render_to_string` pushes a fresh scope,
injects the owning extension under the well-known `extension` key in
that scope, and pops the scope unconditionally — the returned context
equals the original both for an arbitrary renderer and for one that
always raises — so no context mutation leaks to sibling renders. -/
theorem c9_render_scoped (render : RenderContext → Except String String)
    (extension : Nat) (context : RenderContext) :
    (templateHook_render_to_string render extension context).2 = context ∧
    (templateHook_render_to_string render extension context).1 =
      render (context_set (context_push context) extensionKey extension) ∧
    context_get (context_set (context_push context) extensionKey extension)
        extensionKey = some extension ∧
    (templateHook_render_to_string (fun _ => Except.error failMessage)
        extension context).2 = context := by
  refine ⟨rfl, rfl, ?_, rfl⟩
  simp [context_push, context_set, context_get, scope_get]

end Djblets
